import Mathlib

/-!
Formal model of the Btools (VitruviAI) backend analysis pipeline.

The definitions below are a shallow embedding of the TypeScript sources:
  - backend-node/src/modules/ai/ai.service.ts        (buildProjectData)
  - backend-node/src/modules/portfolio/portfolio.service.ts
  - backend-node/src/modules/projects/project.routes.ts (analyze, forecast)
  - backend-node/src/middleware/auth.middleware.ts   (checkScanLimit)
  - backend-node/src/server.ts                       (connection latch)
  - backend-node/src/db/mongodb.ts                   (incrementScanUsage)

Modelling conventions:
  - JavaScript numbers are modelled as rationals.
  - A JSON field that may be absent is an Option; a field read with the
    JavaScript default idiom (x or-else 0) becomes Option.getD 0, which is
    exact for a numeric field: 0, null, NaN and a missing field all turn
    into 0 under that idiom.  For a string field the idiom also replaces
    the empty string, hence jsOrStr below.
  - Math.round rounds half toward plus infinity, i.e. floor (q + 1/2).
  - Math.ceil is the integer ceiling.
-/

namespace Btools

/-- JavaScript Math.round: round half toward plus infinity. -/
def jsRound (q : ℚ) : ℚ := ((⌊q + (1 : ℚ)/2⌋ : ℤ) : ℚ)

/-- JavaScript Math.ceil as an integer result. -/
def jsCeil (q : ℚ) : ℤ := ⌈q⌉

/-- The JavaScript idiom `x || 0` on a possibly-absent numeric field. -/
def numOr0 (o : Option ℚ) : ℚ := o.getD 0

/-- The JavaScript idiom `x || d` on a possibly-absent string field:
the default replaces both a missing value and the empty string. -/
def jsOrStr (o : Option String) (d : String) : String :=
  match o with
  | none => d
  | some s => if s = "" then d else s

/-! ## Raw vision-adapter output (ai.service.ts, untrusted JSON) -/

structure RawManpower where
  total : Option ℚ
  skilled : Option ℚ
  unskilled : Option ℚ
  productivityIndex : Option ℚ
  safetyScore : Option ℚ
deriving Repr, DecidableEq

structure RawMachinery where
  activeUnits : Option ℚ
  utilization : Option ℚ
  maintenanceAlerts : Option ℚ
deriving Repr, DecidableEq

structure RawMaterial where
  name : Option String
  allocated : Option ℚ
  used : Option ℚ
  wastage : Option ℚ
  risk : Option String
deriving Repr, DecidableEq

structure RawFinancials where
  budgetTotal : Option ℚ
  budgetSpent : Option ℚ
  costOverrun : Option ℚ
deriving Repr, DecidableEq

structure RawValuation where
  current : Option ℚ
  landValue : Option ℚ
  projectedCompletedValue : Option ℚ
deriving Repr, DecidableEq

structure RawCompliance where
  structuralScore : Option ℚ
  sustainabilityRating : Option String
deriving Repr, DecidableEq

structure RawGeo where
  soilType : Option String
  floodRisk : Option String
  climateScore : Option ℚ
deriving Repr, DecidableEq

/-- The well-typed restriction of the adapter JSON: every field is either
absent or carries a value of the expected type.  The source receives a
Record of unknowns and its TypeScript casts have no runtime effect, so a
present value of the WRONG type is neither rejected nor defaulted by the
or-else idiom; that dynamic behaviour is outside this type and is
modelled separately by JSVal, progressFieldJS and budgetDistributionJS
below. -/
structure RawAIResult where
  stage : Option String
  progressPercentage : Option ℚ
  timeRemaining : Option String
  criticalPath : Option String
  delaysFlagged : Option ℚ
  confidence_score : Option ℚ
  manpower : Option RawManpower
  machinery : Option RawMachinery
  materials : Option (List RawMaterial)
  financials : Option RawFinancials
  valuation : Option RawValuation
  compliance : Option RawCompliance
  geo : Option RawGeo
  insights : Option (List String)
deriving Repr, DecidableEq

/-- The empty JSON object as adapter output. -/
def emptyRaw : RawAIResult :=
  ⟨none, none, none, none, none, none, none, none, none, none, none, none, none, none⟩

/-! ## Canonical Project Data (normalizer output, ai.service.ts) -/

structure Manpower where
  total : ℚ
  skilled : ℚ
  unskilled : ℚ
  productivityIndex : ℚ
  safetyScore : ℚ
  skillDistribution : List (String × ℚ)
  idleWorkers : ℚ
deriving Repr, DecidableEq

structure Machinery where
  utilization : ℚ
  activeUnits : ℚ
  maintenanceAlerts : ℚ
  fuelConsumption : ℚ
  efficiencyRatio : ℚ
deriving Repr, DecidableEq

structure Financials where
  budgetTotal : ℚ
  budgetSpent : ℚ
  budgetRemaining : ℚ
  costOverrun : ℚ
  projectedFinalCost : ℚ
  cashFlowHealth : String
  roiProjection : ℚ
  monthlyCashFlow : List ℚ
deriving Repr, DecidableEq

structure ValuationData where
  current : ℚ
  landValue : ℚ
  projectedCompletedValue : ℚ
  appreciationForecast : ℚ
  rentalYield : ℚ
  nearbyTransactions : List String
deriving Repr, DecidableEq

structure ComplianceData where
  structuralScore : ℚ
  fsiUsed : ℚ
  sustainabilityRating : String
  codeViolations : ℚ
  embodiedCarbon : String
deriving Repr, DecidableEq

structure GeoData where
  soilType : String
  floodRisk : String
  seismicZone : String
  climateScore : ℚ
  groundwaterLevel : String
  windLoad : String
deriving Repr, DecidableEq

structure ChartPoint where
  name : String
  actual : ℚ
  projected : ℚ
deriving Repr, DecidableEq

structure Charts where
  progressOverTime : List ChartPoint
  valuationGrowth : List (String × ℚ)
  budgetDistribution : List (String × ℚ)
deriving Repr, DecidableEq

structure ProjectData where
  id : String
  name : String
  location : String
  lastUpdated : String
  stage : String
  progressPercentage : ℚ
  timeRemaining : String
  criticalPath : String
  delaysFlagged : ℚ
  burnRate : ℚ
  manpower : Manpower
  machinery : Machinery
  materials : List RawMaterial
  financials : Financials
  valuation : ValuationData
  compliance : ComplianceData
  geo : GeoData
  charts : Charts
  insights : List String
deriving Repr, DecidableEq

/-- Owning-project context passed to the normalizer (name, location, id). -/
structure ProjCtx where
  name : String
  location : String
  idStr : String
deriving Repr, DecidableEq

/-- The manpower block of buildProjectData (ai.service.ts). -/
def buildManpower (aiResult : RawAIResult) : Manpower :=
  let aiManpower := aiResult.manpower
  let mskilled := numOr0 (aiManpower.bind (·.skilled))
  let munskilled := numOr0 (aiManpower.bind (·.unskilled))
  { total := numOr0 (aiManpower.bind (·.total))
    skilled := mskilled
    unskilled := munskilled
    productivityIndex := numOr0 (aiManpower.bind (·.productivityIndex))
    safetyScore := numOr0 (aiManpower.bind (·.safetyScore))
    skillDistribution :=
      [("Mason", jsRound (mskilled * 0.3)),
       ("Carpenter", jsRound (mskilled * 0.2)),
       ("Electrician", jsRound (mskilled * 0.15)),
       ("Plumber", jsRound (mskilled * 0.1)),
       ("Laborer", munskilled)]
    idleWorkers := 0 }

/-- The machinery block of buildProjectData (ai.service.ts). -/
def buildMachinery (aiResult : RawAIResult) : Machinery :=
  let aiMachinery := aiResult.machinery
  { utilization := numOr0 (aiMachinery.bind (·.utilization))
    activeUnits := numOr0 (aiMachinery.bind (·.activeUnits))
    maintenanceAlerts := numOr0 (aiMachinery.bind (·.maintenanceAlerts))
    fuelConsumption := 0
    efficiencyRatio := numOr0 (aiMachinery.bind (·.utilization)) }

/-- The financials block of buildProjectData (ai.service.ts): budgetSpent in
currency is derived from the raw budget-spent percentage. -/
def buildFinancials (aiResult : RawAIResult) : Financials :=
  let aiFinancials := aiResult.financials
  let budgetTotal := numOr0 (aiFinancials.bind (·.budgetTotal))
  let budgetSpentPct := numOr0 (aiFinancials.bind (·.budgetSpent))
  let budgetSpent := jsRound (budgetTotal * budgetSpentPct / 100)
  let costOverrun := numOr0 (aiFinancials.bind (·.costOverrun))
  { budgetTotal := budgetTotal
    budgetSpent := budgetSpent
    budgetRemaining := budgetTotal - budgetSpent
    costOverrun := costOverrun
    projectedFinalCost := jsRound (budgetTotal * (1 + costOverrun / 100))
    cashFlowHealth :=
      if costOverrun ≤ 0 then "Positive"
      else if costOverrun < 10 then "Neutral" else "Negative"
    roiProjection := 0
    monthlyCashFlow := [] }

/-- The valuation block of buildProjectData (ai.service.ts). -/
def buildValuation (aiResult : RawAIResult) : ValuationData :=
  let aiValuation := aiResult.valuation
  { current := numOr0 (aiValuation.bind (·.current))
    landValue := numOr0 (aiValuation.bind (·.landValue))
    projectedCompletedValue := numOr0 (aiValuation.bind (·.projectedCompletedValue))
    appreciationForecast := 0
    rentalYield := 0
    nearbyTransactions := [] }

/-- The compliance block of buildProjectData (ai.service.ts). -/
def buildCompliance (aiResult : RawAIResult) : ComplianceData :=
  let aiCompliance := aiResult.compliance
  { structuralScore := numOr0 (aiCompliance.bind (·.structuralScore))
    fsiUsed := 0
    sustainabilityRating := jsOrStr (aiCompliance.bind (·.sustainabilityRating)) "N/A"
    codeViolations := 0
    embodiedCarbon := "N/A" }

/-- The geo block of buildProjectData (ai.service.ts). -/
def buildGeo (aiResult : RawAIResult) : GeoData :=
  let aiGeo := aiResult.geo
  { soilType := jsOrStr (aiGeo.bind (·.soilType)) "Unknown"
    floodRisk := jsOrStr (aiGeo.bind (·.floodRisk)) "Unknown"
    seismicZone := "Unknown"
    climateScore := numOr0 (aiGeo.bind (·.climateScore))
    groundwaterLevel := "Unknown"
    windLoad := "Unknown" }

/-- The charts block of buildProjectData (ai.service.ts). -/
def buildCharts (aiResult : RawAIResult) (year : String) : Charts :=
  let progressPercentage := numOr0 aiResult.progressPercentage
  let materials := aiResult.materials.getD []
  let aiValuation := aiResult.valuation
  { progressOverTime := [⟨"Current", progressPercentage, progressPercentage⟩]
    valuationGrowth := [(year, numOr0 (aiValuation.bind (·.current)))]
    budgetDistribution :=
      if materials.length > 0 then
        materials.map (fun m => (m.name.getD "", numOr0 m.used))
      else [] }

/-- AIService.buildProjectData from ai.service.ts.  `now` stands for
`new Date().toISOString()` and `year` for the current-year string used in
the valuation-growth chart; both are opaque environment inputs. -/
def buildProjectData (aiResult : RawAIResult) (project : Option ProjCtx)
    (now year : String) : ProjectData :=
  let budgetSpent := (buildFinancials aiResult).budgetSpent
  { id := jsOrStr (project.map (·.idStr)) "temp-1"
    name := jsOrStr (project.map (·.name)) "Untitled Project"
    location := jsOrStr (project.map (·.location)) "Unknown Location"
    lastUpdated := now
    stage := jsOrStr aiResult.stage "Unknown"
    progressPercentage := numOr0 aiResult.progressPercentage
    timeRemaining := jsOrStr aiResult.timeRemaining "Unknown"
    criticalPath := jsOrStr aiResult.criticalPath "Unknown"
    delaysFlagged := numOr0 aiResult.delaysFlagged
    burnRate := if budgetSpent > 0 then jsRound (budgetSpent / 6) else 0
    manpower := buildManpower aiResult
    machinery := buildMachinery aiResult
    materials := aiResult.materials.getD []
    financials := buildFinancials aiResult
    valuation := buildValuation aiResult
    compliance := buildCompliance aiResult
    geo := buildGeo aiResult
    charts := buildCharts aiResult year
    insights := aiResult.insights.getD [] }

/-! ## Stored projects as seen by the portfolio aggregator
(portfolio.service.ts reads project.project_data with optional chaining,
so every field access is modelled as an Option access). -/

structure StoredFinancials where
  budgetTotal : Option ℚ
  budgetSpent : Option ℚ
deriving Repr, DecidableEq

structure StoredManpower where
  total : Option ℚ
  safetyScore : Option ℚ
deriving Repr, DecidableEq

structure StoredValuation where
  current : Option ℚ
deriving Repr, DecidableEq

structure StoredProjectData where
  progressPercentage : Option ℚ
  delaysFlagged : Option ℚ
  financials : Option StoredFinancials
  manpower : Option StoredManpower
  valuation : Option StoredValuation
deriving Repr, DecidableEq

structure Project where
  idStr : String
  name : String
  project_data : Option StoredProjectData
deriving Repr, DecidableEq

/-- View of a normalizer-produced ProjectData record as stored project data
(document round-trip: every field it wrote is present on read). -/
def storeProjectData (pd : ProjectData) : StoredProjectData :=
  { progressPercentage := some pd.progressPercentage
    delaysFlagged := some pd.delaysFlagged
    financials := some ⟨some pd.financials.budgetTotal, some pd.financials.budgetSpent⟩
    manpower := some ⟨some pd.manpower.total, some pd.manpower.safetyScore⟩
    valuation := some ⟨some pd.valuation.current⟩ }

inductive PStatus where
  | on_track
  | at_risk
  | delayed
deriving Repr, DecidableEq

inductive RiskLevel where
  | low
  | medium
  | high
deriving Repr, DecidableEq

/-- The status classification inside getPortfolioSummary
(portfolio.service.ts, lines 74-81), reached only when
progressPercentage is a number.  The source guard
`delaysFlagged && delaysFlagged > 2` (truthy and greater than 2) is
equivalent to `delays > 2` on the defaulted value, since 2 < delays
implies delays is nonzero and a missing field defaults to 0. -/
def classifyStatus (prog delays spent : ℚ) : PStatus :=
  if 2 < delays then .delayed
  else if prog < 50 ∧ 60 < spent then .at_risk
  else .on_track

structure SummaryAcc where
  totalValue : ℚ
  totalProgress : ℚ
  totalBudgetSpent : ℚ
  totalWorkers : ℚ
  totalSafetyScore : ℚ
  projectsOnTrack : ℕ
  projectsAtRisk : ℕ
  projectsDelayed : ℕ
  safetyScoreCount : ℕ
deriving Repr, DecidableEq

def initSummaryAcc : SummaryAcc := ⟨0, 0, 0, 0, 0, 0, 0, 0, 0⟩

/-- One iteration of the accumulation loop of getPortfolioSummary
(portfolio.service.ts, lines 61-100).  A JavaScript truthiness test on a
numeric field is modelled as: present and nonzero. -/
def summaryStep (acc : SummaryAcc) (project : Project) : SummaryAcc :=
  match project.project_data with
  | none => acc
  | some data =>
    let v := numOr0 (data.valuation.bind (·.current))
    let acc1 := if v ≠ 0 then { acc with totalValue := acc.totalValue + v } else acc
    let acc2 :=
      match data.progressPercentage with
      | some prog =>
        let a := { acc1 with totalProgress := acc1.totalProgress + prog }
        match classifyStatus prog (numOr0 data.delaysFlagged)
            (numOr0 ((data.financials).bind (·.budgetSpent))) with
        | .delayed => { a with projectsDelayed := a.projectsDelayed + 1 }
        | .at_risk => { a with projectsAtRisk := a.projectsAtRisk + 1 }
        | .on_track => { a with projectsOnTrack := a.projectsOnTrack + 1 }
      | none => acc1
    let t := numOr0 ((data.financials).bind (·.budgetTotal))
    let s := numOr0 ((data.financials).bind (·.budgetSpent))
    let acc3 :=
      if t ≠ 0 ∧ s ≠ 0 then
        { acc2 with totalBudgetSpent := acc2.totalBudgetSpent + t * s / 100 }
      else acc2
    let w := numOr0 ((data.manpower).bind (·.total))
    let acc4 := if w ≠ 0 then { acc3 with totalWorkers := acc3.totalWorkers + w } else acc3
    let sc := numOr0 ((data.manpower).bind (·.safetyScore))
    if sc ≠ 0 then
      { acc4 with totalSafetyScore := acc4.totalSafetyScore + sc,
                  safetyScoreCount := acc4.safetyScoreCount + 1 }
    else acc4

/-- The accumulator after folding over all of the projects of a user. -/
def portfolioAcc (projects : List Project) : SummaryAcc :=
  projects.foldl summaryStep initSummaryAcc

structure PortfolioSummary where
  total_projects : ℕ
  total_value : ℚ
  avg_progress : ℚ
  projects_on_track : ℕ
  projects_at_risk : ℕ
  projects_delayed : ℕ
  total_budget_spent : ℚ
  portfolio_roi : ℚ
  total_workers : ℚ
  avg_safety_score : ℚ
deriving Repr, DecidableEq

/-- getPortfolioSummary (portfolio.service.ts).  The dollar/percent string
formatting (toFixed and the dollar-millions rendering) is omitted: the
numeric quantities that feed it are returned directly. -/
def getPortfolioSummary (projects : List Project) : PortfolioSummary :=
  if projects.isEmpty then ⟨0, 0, 0, 0, 0, 0, 0, 0, 0, 0⟩
  else
    let acc := portfolioAcc projects
    { total_projects := projects.length
      total_value := acc.totalValue
      avg_progress := acc.totalProgress / (projects.length : ℚ)
      projects_on_track := acc.projectsOnTrack
      projects_at_risk := acc.projectsAtRisk
      projects_delayed := acc.projectsDelayed
      total_budget_spent := acc.totalBudgetSpent
      portfolio_roi :=
        if 0 < acc.totalBudgetSpent then
          (acc.totalValue - acc.totalBudgetSpent) / acc.totalBudgetSpent * 100
        else 0
      total_workers := acc.totalWorkers
      avg_safety_score :=
        if 0 < acc.safetyScoreCount then
          acc.totalSafetyScore / (acc.safetyScoreCount : ℚ)
        else 0 }

structure ProjectComparison where
  project_id : String
  name : String
  progress : ℚ
  budget_spent_pct : ℚ
  safety_score : ℚ
  risk_level : RiskLevel
  status : PStatus
deriving Repr, DecidableEq

/-- One element of compareProjects (portfolio.service.ts, lines 128-161). -/
def compareProject (project : Project) : ProjectComparison :=
  let data := project.project_data
  let progress := numOr0 (data.bind (·.progressPercentage))
  let budgetSpent := numOr0 ((data.bind (·.financials)).bind (·.budgetSpent))
  let safetyScore := numOr0 ((data.bind (·.manpower)).bind (·.safetyScore))
  let delays := numOr0 (data.bind (·.delaysFlagged))
  let riskLevel : RiskLevel :=
    if 3 < delays ∨ safetyScore < 70 ∨ (progress < 50 ∧ 60 < budgetSpent) then .high
    else if 1 < delays ∨ safetyScore < 85 ∨ (progress < 70 ∧ 80 < budgetSpent) then .medium
    else .low
  let status : PStatus :=
    if 2 < delays then .delayed
    else if riskLevel = .high ∨ riskLevel = .medium then .at_risk
    else .on_track
  { project_id := project.idStr
    name := project.name
    progress := progress
    budget_spent_pct := budgetSpent
    safety_score := safetyScore
    risk_level := riskLevel
    status := status }

/-- compareProjects (portfolio.service.ts), with the optional id filter
already applied to the project list. -/
def compareProjects (projects : List Project) : List ProjectComparison :=
  projects.map compareProject

/-! ## Analysis history snapshots (analysis-history.model.ts) -/

structure HistFinancials where
  budgetTotal : ℚ
  budgetSpent : ℚ
deriving Repr, DecidableEq

structure HistManpower where
  total : ℚ
  safetyScore : ℚ
deriving Repr, DecidableEq

/-- The fields of an AnalysisSnapshot used by the delta, trend and forecast
code.  progressPercentage and delaysFlagged are required fields of the
snapshot; the manpower and financials sub-objects are optional. -/
structure HistSnapshot where
  progressPercentage : ℚ
  delaysFlagged : ℚ
  financials : Option HistFinancials
  manpower : Option HistManpower
deriving Repr, DecidableEq

/-! ## Forecast engine (project.routes.ts, forecast route, lines 490-568)

The route fetches the most recent (up to 10) history entries newest-first
and reverses them; `history` below is the fetched, newest-first list. -/

/-- The chronological (x, progress, budget) series the regression runs on:
x is the sequence index, budget is financials?.budgetSpent or 0. -/
def forecastPoints (history : List HistSnapshot) : List (ℚ × ℚ × ℚ) :=
  history.reverse.enum.map
    (fun p => ((p.1 : ℚ), p.2.progressPercentage, numOr0 (p.2.financials.map (·.budgetSpent))))

def fN (history : List HistSnapshot) : ℚ := ((forecastPoints history).length : ℚ)

def fSumX (history : List HistSnapshot) : ℚ :=
  (forecastPoints history).foldl (fun s d => s + d.1) 0

def fSumY (history : List HistSnapshot) : ℚ :=
  (forecastPoints history).foldl (fun s d => s + d.2.1) 0

def fSumXY (history : List HistSnapshot) : ℚ :=
  (forecastPoints history).foldl (fun s d => s + d.1 * d.2.1) 0

def fSumX2 (history : List HistSnapshot) : ℚ :=
  (forecastPoints history).foldl (fun s d => s + d.1 * d.1) 0

/-- Ordinary-least-squares slope of progress on index.  For two or more
points the denominator is positive, so the rational division agrees with
the JavaScript one. -/
def fSlope (history : List HistSnapshot) : ℚ :=
  (fN history * fSumXY history - fSumX history * fSumY history) /
    (fN history * fSumX2 history - fSumX history * fSumX history)

def fIntercept (history : List HistSnapshot) : ℚ :=
  (fSumY history - fSlope history * fSumX history) / fN history

/-- stepsTo100: only defined (non-null) for a positive slope; the division
by the slope happens only under that guard. -/
def fStepsTo100 (history : List HistSnapshot) : Option ℚ :=
  if 0 < fSlope history then some ((100 - fIntercept history) / fSlope history) else none

/-- daysTo100 = ceil(steps * 7), one analysis per week assumed. -/
def fDaysTo100 (history : List HistSnapshot) : Option ℤ :=
  (fStepsTo100 history).map (fun s => jsCeil (s * 7))

def fCurrentBudget (history : List HistSnapshot) : ℚ :=
  ((forecastPoints history).getLast?.map (·.2.2)).getD 0

def fCurrentProgress (history : List HistSnapshot) : ℚ :=
  ((forecastPoints history).getLast?.map (·.2.1)).getD 0

def fProjectedFinalBudget (history : List HistSnapshot) : ℚ :=
  if 0 < fCurrentProgress history then
    fCurrentBudget history / fCurrentProgress history * 100
  else 0

/-- recentVelocity: last progress minus the progress three entries back
when at least three points exist, else 0. -/
def fRecentVelocity (history : List HistSnapshot) : ℚ :=
  let pts := forecastPoints history
  if 3 ≤ pts.length then
    (((pts.getLast?).map (·.2.1)).getD 0) - (((pts.get? (pts.length - 3)).map (·.2.1)).getD 0)
  else 0

def fRiskLevel (history : List HistSnapshot) : String :=
  if fRecentVelocity history < 5 then "high"
  else if fRecentVelocity history < 10 then "medium"
  else "low"

def resourcingMsg : String := "Project velocity is slowing. Consider increasing resources."

def costControlMsg : String := "Budget overrun projected. Review cost controls."

def stakeholderMsg : String := "High risk detected. Schedule review meeting with stakeholders."

/-- The recommendations array: three conditional advisories, nulls filtered
out (the .filter(Boolean) in the source). -/
def fRecommendations (history : List HistSnapshot) : List String :=
  [if fRecentVelocity history < 5 then some resourcingMsg else none,
   if 110 < fProjectedFinalBudget history then some costControlMsg else none,
   if fRiskLevel history = "high" then some stakeholderMsg else none].filterMap id

/-- Number(x.toFixed(2)). -/
def roundTo2 (q : ℚ) : ℚ := jsRound (q * 100) / 100

structure ForecastResult where
  completion_days : Option ℤ
  completion_date_estimate : String
  completion_confidence : String
  final_budget_projection : ℚ
  budget_overrun_risk : String
  risk_level : String
  recommendations : List String
deriving Repr, DecidableEq

structure HttpError where
  statusCode : ℕ
  detail : String
deriving Repr, DecidableEq

def insufficientDataErr : HttpError :=
  ⟨400, "Insufficient data for forecasting. Need at least 2 analyses."⟩

/-- The forecast route handler (project.routes.ts).  completion_days keeps
the daysTo100 local of the source; the estimate string uses the JavaScript
truthiness of daysTo100 (null and 0 both print the fallback). -/
def forecastHandler (history : List HistSnapshot) : Except HttpError ForecastResult :=
  if history.length < 2 then .error insufficientDataErr
  else
    let days := fDaysTo100 history
    .ok
      { completion_days := days
        completion_date_estimate :=
          match days with
          | some d => if d = 0 then "Unable to estimate"
                      else toString d ++ " days from latest analysis"
          | none => "Unable to estimate"
        completion_confidence :=
          match days with
          | some d =>
            if d = 0 then "insufficient data"
            else if 0.5 < fSlope history then "high"
            else if 0.2 < fSlope history then "medium"
            else "low"
          | none => "insufficient data"
        final_budget_projection := roundTo2 (fProjectedFinalBudget history)
        budget_overrun_risk :=
          if 0 < fCurrentProgress history ∧
              1 < fCurrentBudget history / fCurrentProgress history then "Yes"
          else "No"
        risk_level := fRiskLevel history
        recommendations := fRecommendations history }

/-! ## AI analysis result and the analyze route (project.routes.ts) -/

/-- AIAnalysisResult (ai.service.ts), restricted to the fields the analyze
route reads.  errorMsg models the optional error property. -/
structure AIAnalysisResult where
  valid : Bool
  stage : String
  progressPercentage : ℚ
  delaysFlagged : ℚ
  confidence_score : ℚ
  insights : List String
  project_data : Option ProjectData
  errorMsg : Option String
deriving Repr, DecidableEq

structure AnalysisDelta where
  progress : ℚ
  budget_spent : Option ℚ
  workers : Option ℚ
  safety_score : Option ℚ
  delays : ℚ
deriving Repr, DecidableEq

/-- The delta computation of the analyze route (project.routes.ts,
lines 320-333).  No deltas at all without a previous history entry;
progress and delays deltas are unconditional; the other three are gated
on the truthiness (nonzero) of the new value, with a missing prior value
defaulted to 0. -/
def computeDeltas (analysisResult : AIAnalysisResult) (previous : Option HistSnapshot) :
    Option AnalysisDelta :=
  match previous with
  | none => none
  | some prev =>
    some
      { progress := analysisResult.progressPercentage - prev.progressPercentage
        budget_spent :=
          match analysisResult.project_data with
          | some pd =>
            if pd.financials.budgetSpent ≠ 0 then
              some (pd.financials.budgetSpent - numOr0 (prev.financials.map (·.budgetSpent)))
            else none
          | none => none
        workers :=
          match analysisResult.project_data with
          | some pd =>
            if pd.manpower.total ≠ 0 then
              some (pd.manpower.total - numOr0 (prev.manpower.map (·.total)))
            else none
          | none => none
        safety_score :=
          match analysisResult.project_data with
          | some pd =>
            if pd.manpower.safetyScore ≠ 0 then
              some (pd.manpower.safetyScore - numOr0 (prev.manpower.map (·.safetyScore)))
            else none
          | none => none
        delays := analysisResult.delaysFlagged - prev.delaysFlagged }

/-- The snapshot stored in the history entry for a new analysis. -/
def snapshotOf (r : AIAnalysisResult) : HistSnapshot :=
  { progressPercentage := r.progressPercentage
    delaysFlagged := r.delaysFlagged
    financials := r.project_data.map
      (fun pd => ⟨pd.financials.budgetTotal, pd.financials.budgetSpent⟩)
    manpower := r.project_data.map
      (fun pd => ⟨pd.manpower.total, pd.manpower.safetyScore⟩) }

/-- Persistent state touched by the analyze route: the analyses stored on
the project document, the analysis-history collection for the project
(chronological, oldest first) and the scan-usage counter of the user. -/
structure AnalyzeState where
  analyses : List AIAnalysisResult
  history : List (HistSnapshot × Option AnalysisDelta)
  scans_used : ℕ
deriving Repr, DecidableEq

structure AnalyzeReply where
  statusCode : ℕ
  detail : Option String
deriving Repr, DecidableEq

/-- The analyze route handler after the project lookup succeeded
(project.routes.ts, lines 282-365): on an adapter error it replies 400
with the error text and performs no write; on success it appends the
analysis, increments the scan counter once (incrementScanUsage performs a
single $inc by 1, mongodb.ts lines 228-243), computes deltas against the
latest history entry and appends one history entry. -/
def analyzeStep (st : AnalyzeState) (analysisResult : AIAnalysisResult) :
    AnalyzeState × AnalyzeReply :=
  match analysisResult.errorMsg with
  | some msg => (st, ⟨400, some msg⟩)
  | none =>
    let previous := (st.history.getLast?).map (·.1)
    let deltas := computeDeltas analysisResult previous
    ({ analyses := st.analyses ++ [analysisResult]
       history := st.history ++ [(snapshotOf analysisResult, deltas)]
       scans_used := st.scans_used + 1 },
     ⟨200, none⟩)

/-! ## Scan-limit gate (auth.middleware.ts, checkScanLimit) -/

structure Subscription where
  plan : String
  scans_used : ℚ
  scans_limit : ℚ
deriving Repr, DecidableEq

/-- checkScanLimit after successful authentication: some 403 when the
request is rejected, none when it passes.  The JavaScript defaulting
idiom is kept: scans_used falls back to 0 (identity for a numeric field),
scans_limit falls back to 3 when falsy (in particular when it is 0), and
an empty plan string falls back to "free". -/
def checkScanLimit (sub : Subscription) : Option ℕ :=
  let scansUsed := sub.scans_used
  let scansLimit := if sub.scans_limit = 0 then 3 else sub.scans_limit
  let plan := if sub.plan = "" then "free" else sub.plan
  if plan = "free" ∧ scansLimit ≤ scansUsed then some 403 else none

/-! ## Connection latch (server.ts, lines 52-66, over connectMongoDB of
mongodb.ts)

Per-request event-loop model.  A hook execution is atomic up to its await:
the synchronous prefix checks the connected flag and the pending-promise
marker and may start a new attempt; a running attempt settles later,
setting the connected flag on success and clearing both the cache and,
through the finally clause, the marker on failure. -/

structure ConnState where
  connected : Bool
  marker : Option ℕ
  inFlight : List ℕ
  waiting : List (ℕ × ℕ)
  nextId : ℕ
deriving Repr, DecidableEq

def initConnState : ConnState := ⟨false, none, [], [], 0⟩

inductive ConnEvent where
  | enter (c : ℕ)
  | settle (id : ℕ) (ok : Bool)
deriving Repr, DecidableEq

/-- Small-step semantics of the latch.  enter is the synchronous prefix of
the onRequest hook run by caller c; settle is the completion of the
connectMongoDB call with attempt id, including its finally clause. -/
inductive ConnStep : ConnState → ConnEvent → ConnState → Prop where
  | enterConnected {s : ConnState} {c : ℕ} :
      s.connected = true → ConnStep s (.enter c) s
  | enterAwait {s : ConnState} {c id : ℕ} :
      s.connected = false → s.marker = some id →
      ConnStep s (.enter c) { s with waiting := (c, id) :: s.waiting }
  | enterStart {s : ConnState} {c : ℕ} :
      s.connected = false → s.marker = none →
      ConnStep s (.enter c)
        { connected := false
          marker := some s.nextId
          inFlight := s.nextId :: s.inFlight
          waiting := (c, s.nextId) :: s.waiting
          nextId := s.nextId + 1 }
  | settle {s : ConnState} {id : ℕ} {ok : Bool} :
      id ∈ s.inFlight →
      ConnStep s (.settle id ok)
        { connected := ok
          marker := if ok then s.marker else none
          inFlight := s.inFlight.erase id
          waiting := s.waiting.filter (fun p => p.2 ≠ id)
          nextId := s.nextId }

/-- States reachable from the cold start by hook executions and attempt
completions. -/
inductive ConnReachable : ConnState → Prop where
  | init : ConnReachable initConnState
  | step {s e s'} : ConnReachable s → ConnStep s e s' → ConnReachable s'

/-! ## Result projections and concrete inputs used in the statements -/

/-- completion_days of a forecast response (none on the error branch). -/
def daysOf (e : Except HttpError ForecastResult) : Option ℤ :=
  match e with
  | .ok r => r.completion_days
  | .error _ => none

/-- completion_date_estimate of a forecast response. -/
def estimateOf (e : Except HttpError ForecastResult) : String :=
  match e with
  | .ok r => r.completion_date_estimate
  | .error _ => ""

/-- recommendations of a forecast response. -/
def recsOf (e : Except HttpError ForecastResult) : List String :=
  match e with
  | .ok r => r.recommendations
  | .error _ => []

/-- Adapter output whose only content is a budget of 1000 of which 50
percent is spent: the normalizer turns this into budgetSpent = 500
currency units. -/
def rawBudget1000 : RawAIResult :=
  { emptyRaw with financials := some ⟨some 1000, some 50, none⟩ }

/-- Adapter output carrying only a cost-overrun percentage. -/
def rawOverrun (c : ℚ) : RawAIResult :=
  { emptyRaw with financials := some ⟨none, none, some c⟩ }

/-- Adapter output with budgetTotal 5,000,000 and 45 percent spent. -/
def rawBudget5M : RawAIResult :=
  { emptyRaw with financials := some ⟨some 5000000, some 45, none⟩ }

/-- A stored project whose Project Data is the normalizer output for
rawBudget1000 (budgetSpent = 500 currency units). -/
def projBudget1000 : Project :=
  ⟨"p1", "Site A", some (storeProjectData (buildProjectData rawBudget1000 none "t0" "2025"))⟩

/-- The project of the risk-versus-status example: safetyScore 65,
delaysFlagged 0, progressPercentage 80 (budget 20 percent of 100 spent,
well under every budget threshold). -/
def projRiskExample : Project :=
  ⟨"pc1", "Example", some
    { progressPercentage := some 80
      delaysFlagged := some 0
      financials := some ⟨some 100, some 20⟩
      manpower := some ⟨some 10, some 65⟩
      valuation := none }⟩

/-- Fetched history (newest first) whose chronological progress values are
150 then 160: a positive slope of 10 with both points above 100. -/
def histOver100 : List HistSnapshot :=
  [⟨160, 0, none, none⟩, ⟨150, 0, none, none⟩]

/-- Fetched history (newest first): progress 10 then 50, budget spent 100
then 500 currency units out of a budget total of 1,000,000. -/
def histBudget : List HistSnapshot :=
  [⟨50, 0, some ⟨1000000, 500⟩, none⟩, ⟨10, 0, some ⟨1000000, 100⟩, none⟩]

/-- Fetched history (newest first) with progress 10 then 20, both within
the 0-100 range. -/
def histSmall : List HistSnapshot :=
  [⟨20, 0, none, none⟩, ⟨10, 0, none, none⟩]

/-- A successful analysis result whose normalized data carries
budgetSpent = 500 and a total of 10 workers with safety score 65. -/
def resBudget : AIAnalysisResult :=
  { valid := true
    stage := "Foundation"
    progressPercentage := 40
    delaysFlagged := 1
    confidence_score := 80
    insights := []
    project_data := some (buildProjectData rawBudget1000 none "t1" "2025")
    errorMsg := none }

/-- A successful analysis result whose normalized data has zero budget
figures (the adapter reported none). -/
def resNoBudget : AIAnalysisResult :=
  { valid := true
    stage := "Foundation"
    progressPercentage := 40
    delaysFlagged := 1
    confidence_score := 80
    insights := []
    project_data := some (buildProjectData emptyRaw none "t1" "2025")
    errorMsg := none }

/-- A prior history snapshot with the same progress 40 that lacks the
financials sub-object entirely. -/
def prevNoFin : HistSnapshot := ⟨40, 1, none, none⟩

/-- A prior history snapshot exposing budget figures. -/
def prevWithFin : HistSnapshot := ⟨40, 1, some ⟨1000, 300⟩, none⟩

/-- A failed adapter result as produced by ai.service.ts on an exception. -/
def resFailed : AIAnalysisResult :=
  { valid := false
    stage := "Error"
    progressPercentage := 0
    delaysFlagged := 0
    confidence_score := 0
    insights := []
    project_data := none
    errorMsg := some "AI analysis failed: boom" }

/-- The latch state after a first request entered on a cold start. -/
def connAfterFirstEnter : ConnState := ⟨false, some 0, [0], [(7, 0)], 1⟩

/-- The invariant carried through the reachability induction for the
connection latch: at most one attempt is in flight, every in-flight
attempt is the marked one, every waiter waits on an in-flight attempt,
and while disconnected the marked attempt is still in flight. -/
def ConnInv (s : ConnState) : Prop :=
  s.inFlight.length ≤ 1
  ∧ (∀ id ∈ s.inFlight, s.marker = some id)
  ∧ (∀ p ∈ s.waiting, p.2 ∈ s.inFlight)
  ∧ (s.connected = false → ∀ id, s.marker = some id → id ∈ s.inFlight)

/-! ## Dynamic (untyped) JSON field values

The adapter output reaches buildProjectData as parsed JSON of unknown
shape.  A present value of the wrong type is not representable in
RawAIResult, so the behaviour of the normalizer on such values is
modelled here directly from the source lines that read them: the
TypeScript casts are erased at runtime and the or-else idiom replaces
falsy values only. -/

inductive JSVal where
  | undef
  | num (q : ℚ)
  | str (s : String)
  | arr (elems : List RawMaterial)
deriving Repr, DecidableEq

/-- JavaScript truthiness of a JSON value: false for a missing value, 0
and the empty string; every array is truthy. -/
def JSVal.truthy : JSVal → Bool
  | .undef => false
  | .num q => q != 0
  | .str s => s != ""
  | .arr _ => true

/-- The idiom `x || d` on a dynamic value: d replaces falsy values only. -/
def jsOrElse (v d : JSVal) : JSVal := if v.truthy then v else d

/-- The assignment of the progressPercentage field in buildProjectData
(ai.service.ts:249) on a dynamic value: the `as number` cast has no
runtime effect, so a truthy non-numeric value such as the string 45
passes through unchanged instead of being defaulted to 0. -/
def progressFieldJS (progressVal : JSVal) : JSVal := jsOrElse progressVal (.num 0)

/-- The materials read (ai.service.ts:280) and the budget-distribution
chart (ai.service.ts:340-342) on a dynamic materials value.  The cast in
the or-else-empty read is erased, and the chart calls materials.map
whenever materials.length > 0.  A nonempty string has a positive length
but no map method, so buildProjectData itself throws a TypeError there;
a number has no length property, so the comparison of undefined with 0
is false and the empty branch is taken. -/
def budgetDistributionJS (materialsVal : JSVal) : Except String (List (String × ℚ)) :=
  match jsOrElse materialsVal (.arr []) with
  | .arr ms =>
    if ms.length > 0 then .ok (ms.map (fun m => (m.name.getD "", numOr0 m.used)))
    else .ok []
  | .str s =>
    if s.length > 0 then .error "TypeError: materials.map is not a function"
    else .ok []
  | .num _ => .ok []
  | .undef => .ok []

/-! ## Shared helper lemmas -/

theorem foldl_add_map {α : Type} (f : α → ℚ) (l : List α) (c : ℚ) :
    l.foldl (fun s a => s + f a) c = c + (l.map f).sum := by
  induction l generalizing c with
  | nil => simp
  | cons a as ih => simp [ih, add_assoc]

theorem sum_range_cast_pos (n : ℕ) (h : 2 ≤ n) :
    0 < ((List.range n).map (fun i : ℕ => (i : ℚ))).sum := by
  induction n with
  | zero => omega
  | succ m ih =>
    rcases Nat.lt_or_ge m 2 with hm | hm
    · have hm1 : m = 1 := by omega
      subst hm1
      have hr : List.range 2 = [0, 1] := rfl
      rw [hr]
      norm_num
    · have hpos := ih hm
      rw [List.range_succ]
      simp only [List.map_append, List.sum_append, List.map_cons, List.map_nil, List.sum_cons,
        List.sum_nil]
      have hm0 : (0 : ℚ) ≤ (m : ℚ) := by positivity
      linarith

theorem forecastPoints_length (history : List HistSnapshot) :
    (forecastPoints history).length = history.length := by
  simp [forecastPoints]

theorem forecastPoints_map_fst (history : List HistSnapshot) :
    (forecastPoints history).map (·.1)
      = (List.range history.length).map (fun i : ℕ => (i : ℚ)) := by
  have h1 : (forecastPoints history).map (·.1)
      = (history.reverse.enum.map Prod.fst).map (fun i : ℕ => (i : ℚ)) := by
    unfold forecastPoints
    simp only [List.map_map]
    rfl
  rw [h1, List.enum_map_fst, List.length_reverse]

theorem forecastPoints_map_progress (history : List HistSnapshot) :
    (forecastPoints history).map (·.2.1)
      = history.reverse.map (·.progressPercentage) := by
  have h1 : (forecastPoints history).map (·.2.1)
      = (history.reverse.enum.map Prod.snd).map (·.progressPercentage) := by
    unfold forecastPoints
    simp only [List.map_map]
    rfl
  rw [h1, List.enum_map_snd]

theorem sum_map_le_card {α : Type} (l : List α) (f : α → ℚ) (b : ℚ)
    (h : ∀ a ∈ l, f a ≤ b) : (l.map f).sum ≤ b * l.length := by
  induction l with
  | nil => simp
  | cons a as ih =>
    simp only [List.map_cons, List.sum_cons, List.length_cons]
    have h1 := h a (by simp)
    have h2 := ih (fun x hx => h x (by simp [hx]))
    push_cast
    linarith

/-- When the progress values are bounded by 100 and the regression slope is
positive, the intercept stays below 100, so the days-to-completion count
is positive. -/
theorem fIntercept_lt_100 (history : List HistSnapshot) (h2 : 2 ≤ history.length)
    (hbound : ∀ s ∈ history, s.progressPercentage ≤ 100)
    (hslope : 0 < fSlope history) : fIntercept history < 100 := by
  have hn : (0 : ℚ) < fN history := by
    unfold fN
    rw [forecastPoints_length]
    have h2q : (2 : ℚ) ≤ (history.length : ℚ) := by exact_mod_cast h2
    linarith
  have hsumX : fSumX history
      = ((List.range history.length).map (fun i : ℕ => (i : ℚ))).sum := by
    unfold fSumX
    rw [foldl_add_map (fun d : ℚ × ℚ × ℚ => d.1), forecastPoints_map_fst]
    ring
  have hsumXpos : 0 < fSumX history := by
    rw [hsumX]
    exact sum_range_cast_pos _ h2
  have hsumY : fSumY history = (history.reverse.map (·.progressPercentage)).sum := by
    unfold fSumY
    rw [foldl_add_map (fun d : ℚ × ℚ × ℚ => d.2.1), forecastPoints_map_progress]
    ring
  have hYle : fSumY history ≤ 100 * fN history := by
    rw [hsumY]
    have hb : ∀ s ∈ history.reverse, s.progressPercentage ≤ 100 :=
      fun s hs => hbound s (List.mem_reverse.mp hs)
    have hle := sum_map_le_card history.reverse (·.progressPercentage) 100 hb
    unfold fN
    rw [forecastPoints_length]
    simpa [List.length_reverse] using hle
  have hsub : fSumY history - fSlope history * fSumX history < fSumY history :=
    sub_lt_self _ (mul_pos hslope hsumXpos)
  unfold fIntercept
  rw [div_lt_iff₀ hn]
  linarith

theorem recsOf_forecastHandler (history : List HistSnapshot) (h : ¬ history.length < 2) :
    recsOf (forecastHandler history) = fRecommendations history := by
  simp only [forecastHandler, if_neg h, recsOf]

theorem inFlight_eq_singleton {s : ConnState} (h1 : s.inFlight.length ≤ 1) {id : ℕ}
    (hmem : id ∈ s.inFlight) : s.inFlight = [id] := by
  cases hin : s.inFlight with
  | nil => rw [hin] at hmem; cases hmem
  | cons a l =>
    rw [hin] at h1
    simp only [List.length_cons] at h1
    have hl : l = [] := List.length_eq_zero.mp (by omega)
    subst hl
    rw [hin] at hmem
    simp only [List.mem_singleton] at hmem
    rw [hmem]

/-- The latch invariant is preserved by every step. -/
theorem connInv_step (s : ConnState) (e : ConnEvent) (s' : ConnState)
    (hinv : ConnInv s) (hstep : ConnStep s e s') : ConnInv s' := by
  obtain ⟨h1, h2, h3, h4⟩ := hinv
  cases hstep with
  | enterConnected h => exact ⟨h1, h2, h3, h4⟩
  | enterAwait hconn hmark =>
    refine ⟨h1, h2, ?_, h4⟩
    intro p hp
    rcases List.mem_cons.mp hp with rfl | hp'
    · exact h4 hconn _ hmark
    · exact h3 p hp'
  | enterStart hconn hmark =>
    have hempty : s.inFlight = [] := by
      cases hin : s.inFlight with
      | nil => rfl
      | cons a l =>
        have := h2 a (by rw [hin]; exact List.mem_cons_self a l)
        rw [hmark] at this
        cases this
    refine ⟨?_, ?_, ?_, ?_⟩
    · simp [hempty]
    · intro id hid
      simp only [hempty] at hid
      simp only [List.mem_singleton] at hid
      simp [hid]
    · intro p hp
      rcases List.mem_cons.mp hp with rfl | hp'
      · simp
      · have := h3 p hp'
        rw [hempty] at this
        cases this
    · intro _ id hm
      simp only [Option.some.injEq] at hm
      simp [← hm]
  | settle hmem =>
    rename_i id ok
    have hsingle := inFlight_eq_singleton h1 hmem
    have herase : s.inFlight.erase id = [] := by
      rw [hsingle]
      simp
    refine ⟨?_, ?_, ?_, ?_⟩
    · rw [herase]; simp
    · intro i hi
      rw [herase] at hi
      cases hi
    · intro p hp
      have hmemw := List.mem_filter.mp hp
      have hin := h3 p hmemw.1
      rw [hsingle] at hin
      simp only [List.mem_singleton] at hin
      have hne : ¬ p.2 = id := by simpa using hmemw.2
      exact absurd hin hne
    · intro hc i hm
      cases ok with
      | true => cases hc
      | false => cases hm

theorem connInv_of_reachable (s : ConnState) (h : ConnReachable s) : ConnInv s := by
  induction h with
  | init =>
    exact ⟨by simp [initConnState], by simp [initConnState], by simp [initConnState],
      by simp [initConnState]⟩
  | step hr hs ih => exact connInv_step _ _ _ ih hs

/-! ## Claim theorems -/

/-- Claim C1, counterexample: the project of the claim (safetyScore 65,
delaysFlagged 0, progressPercentage 80) is classified by compareProjects
as risk high together with status at_risk, not the claimed on_track:
the comparison status is derived from the risk level. -/
theorem c1_status_conflation_counterexample :
    (compareProject projRiskExample).risk_level = RiskLevel.high
    ∧ (compareProject projRiskExample).status = PStatus.at_risk
    ∧ (compareProject projRiskExample).status ≠ PStatus.on_track := by
  have h1 : (compareProject projRiskExample).risk_level = RiskLevel.high := by
    norm_num [compareProject, projRiskExample, numOr0]
  have h2 : (compareProject projRiskExample).status = PStatus.at_risk := by
    norm_num [compareProject, projRiskExample, numOr0]
  exact ⟨h1, h2, by rw [h2]; decide⟩

/-- Claim C1, amended: the classifier used by the portfolio summary
follows the first-match precedence delaysFlagged over 2 then progress
under 50 with budget spent over 60, but the status of compareProjects is
not independent of the risk classifier: it is delayed iff delays exceed 2
and on_track iff additionally the risk level is low. -/
theorem c1_status_classifiers (prog delays spent : ℚ) (p : Project) :
    (classifyStatus prog delays spent = PStatus.delayed ↔ 2 < delays)
    ∧ (classifyStatus prog delays spent = PStatus.at_risk
        ↔ ¬ 2 < delays ∧ (prog < 50 ∧ 60 < spent))
    ∧ (classifyStatus prog delays spent = PStatus.on_track
        ↔ ¬ 2 < delays ∧ ¬ (prog < 50 ∧ 60 < spent))
    ∧ ((compareProject p).status = PStatus.delayed
        ↔ 2 < numOr0 ((p.project_data).bind (·.delaysFlagged)))
    ∧ ((compareProject p).status = PStatus.on_track
        ↔ ¬ 2 < numOr0 ((p.project_data).bind (·.delaysFlagged))
          ∧ (compareProject p).risk_level = RiskLevel.low) := by
  refine ⟨?_, ?_, ?_, ?_, ?_⟩
  · unfold classifyStatus
    split_ifs <;> simp_all
  · unfold classifyStatus
    split_ifs <;> simp_all
  · unfold classifyStatus
    split_ifs <;> simp_all
  · simp only [compareProject]
    split_ifs <;> simp_all
  · simp only [compareProject]
    split_ifs <;> simp_all

/-- Claim C2, counterexample: with two history entries at progress 150 and
160 (nothing clamps progress to 100) the slope is positive and the
returned completion day count is minus 35, a negative estimate printed in
the response. -/
theorem c2_negative_days_counterexample :
    histOver100.length = 2
    ∧ 0 < fSlope histOver100
    ∧ daysOf (forecastHandler histOver100) = some (-35)
    ∧ ((-35 : ℤ) < 0)
    ∧ estimateOf (forecastHandler histOver100) = "-35 days from latest analysis" := by
  have hd : fDaysTo100 histOver100 = some (-35) := by
    norm_num [fDaysTo100, fStepsTo100, fSlope, fIntercept, fN, fSumX, fSumY, fSumXY, fSumX2,
      forecastPoints, histOver100, numOr0, jsCeil, Int.ceil_eq_iff,
      List.enum, List.enumFrom, List.foldl_cons, List.foldl_nil, List.map_cons, List.map_nil]
  have hlt : ¬ histOver100.length < 2 := by norm_num [histOver100]
  refine ⟨rfl, ?_, ?_, by norm_num, ?_⟩
  · norm_num [fSlope, fN, fSumX, fSumY, fSumXY, fSumX2, forecastPoints, histOver100, numOr0,
      List.enum, List.enumFrom, List.foldl_cons, List.foldl_nil, List.map_cons, List.map_nil]
  · simp only [daysOf, forecastHandler, if_neg hlt]
    exact hd
  · simp only [estimateOf, forecastHandler, if_neg hlt]
    rw [hd]
    norm_num
    rfl

/-- Claim C2, amended: with fewer than 2 history entries the forecast
fails with the 400 insufficient-data client error; with at least 2
entries whose progress values are at most 100, a positive slope yields a
completion day count of at least 1 rendered in the estimate string, a
non-positive slope yields no day count and the Unable to estimate
sentinel, and the division by the slope happens only under the
positive-slope guard. -/
theorem c2_forecast_gating (history : List HistSnapshot)
    (hbound : ∀ s ∈ history, s.progressPercentage ≤ 100) :
    (history.length < 2 →
      forecastHandler history = Except.error insufficientDataErr
      ∧ insufficientDataErr.statusCode = 400
      ∧ insufficientDataErr.statusCode < 500)
    ∧ (2 ≤ history.length →
      (∃ r, forecastHandler history = Except.ok r)
      ∧ (0 < fSlope history →
          ∃ d : ℤ, daysOf (forecastHandler history) = some d ∧ 1 ≤ d
            ∧ estimateOf (forecastHandler history)
                = toString d ++ " days from latest analysis")
      ∧ (fSlope history ≤ 0 →
          daysOf (forecastHandler history) = none
          ∧ estimateOf (forecastHandler history) = "Unable to estimate")) := by
  constructor
  · intro hlt
    refine ⟨?_, rfl, by norm_num [insufficientDataErr]⟩
    simp only [forecastHandler, if_pos hlt]
  · intro h2
    have hlt : ¬ history.length < 2 := by omega
    refine ⟨?_, ?_, ?_⟩
    · cases hF : forecastHandler history with
      | ok r => exact ⟨r, rfl⟩
      | error e =>
        simp only [forecastHandler, if_neg hlt] at hF
        exact Except.noConfusion hF
    · intro hpos
      have hintercept := fIntercept_lt_100 history h2 hbound hpos
      have hsteps : fStepsTo100 history
          = some ((100 - fIntercept history) / fSlope history) := by
        unfold fStepsTo100
        rw [if_pos hpos]
      have hqpos : 0 < (100 - fIntercept history) / fSlope history :=
        div_pos (by linarith) hpos
      have hd : fDaysTo100 history
          = some (jsCeil ((100 - fIntercept history) / fSlope history * 7)) := by
        unfold fDaysTo100
        rw [hsteps]
        rfl
      have hdpos : 0 < jsCeil ((100 - fIntercept history) / fSlope history * 7) := by
        unfold jsCeil
        exact Int.ceil_pos.mpr (by positivity)
      refine ⟨jsCeil ((100 - fIntercept history) / fSlope history * 7), ?_, by omega, ?_⟩
      · simp only [daysOf, forecastHandler, if_neg hlt]
        exact hd
      · simp only [estimateOf, forecastHandler, if_neg hlt]
        rw [hd]
        have hne : jsCeil ((100 - fIntercept history) / fSlope history * 7) ≠ 0 := by omega
        simp [hne]
    · intro hle
      have hsteps : fStepsTo100 history = none := by
        unfold fStepsTo100
        rw [if_neg (not_lt.mpr hle)]
      have hd : fDaysTo100 history = none := by
        unfold fDaysTo100
        rw [hsteps]
        rfl
      constructor
      · simp only [daysOf, forecastHandler, if_neg hlt]
        exact hd
      · simp only [estimateOf, forecastHandler, if_neg hlt]
        rw [hd]

/-- Claim C2, witness: on the in-range history with progress 10 then 20
the forecast returns a positive completion day count. -/
theorem c2_forecast_gating_witness :
    ∃ d : ℤ, daysOf (forecastHandler histSmall) = some d ∧ 1 ≤ d := by
  have hb : ∀ s ∈ histSmall, s.progressPercentage ≤ 100 := by
    intro s hs
    simp only [histSmall, List.mem_cons, List.mem_singleton] at hs
    rcases hs with h | h | h
    · rw [h]; norm_num
    · rw [h]; norm_num
    · cases h
  obtain ⟨-, hpos, -⟩ := (c2_forecast_gating histSmall hb).2 (by norm_num [histSmall])
  have hs : 0 < fSlope histSmall := by
    norm_num [fSlope, fN, fSumX, fSumY, fSumXY, fSumX2, forecastPoints, histSmall, numOr0,
      List.enum, List.enumFrom, List.foldl_cons, List.foldl_nil, List.map_cons, List.map_nil]
  obtain ⟨d, hd, h1, -⟩ := hpos hs
  exact ⟨d, hd, h1⟩

/-- Claim C3, counterexample: on histBudget the projected final budget is
1000, far below 110 percent of the recorded budget total of 1,000,000,
yet the cost-control advisory is present: the source compares the
projection against the literal constant 110. -/
theorem c3_cost_advisory_counterexample :
    costControlMsg ∈ recsOf (forecastHandler histBudget)
    ∧ fProjectedFinalBudget histBudget = 1000
    ∧ ((1000 : ℚ) ≤ 110 / 100 * 1000000)
    ∧ histBudget.head?.map (·.financials) = some (some ⟨1000000, 500⟩) := by
  refine ⟨?_, ?_, by norm_num, rfl⟩
  · norm_num [recsOf, forecastHandler, fRecommendations, fRecentVelocity, fRiskLevel,
      fProjectedFinalBudget, fCurrentBudget, fCurrentProgress, fDaysTo100, fStepsTo100,
      fSlope, fIntercept, fN, fSumX, fSumY, fSumXY, fSumX2, forecastPoints, histBudget, numOr0,
      List.enum, List.enumFrom, List.foldl_cons, List.foldl_nil, List.map_cons, List.map_nil]
  · norm_num [fProjectedFinalBudget, fCurrentBudget, fCurrentProgress, forecastPoints,
      histBudget, numOr0, List.enum, List.enumFrom, List.map_cons, List.map_nil]

/-- Claim C3, amended: for a forecast over at least 2 entries, the
resourcing advisory is present iff the recent-velocity value is under 5,
the cost-control advisory iff the projected final budget number exceeds
the constant 110 (not 110 percent of the budget total), and the
stakeholder advisory iff the derived risk level is high. -/
theorem c3_forecast_recommendations (history : List HistSnapshot)
    (h2 : 2 ≤ history.length) :
    (∃ r, forecastHandler history = Except.ok r)
    ∧ (resourcingMsg ∈ recsOf (forecastHandler history) ↔ fRecentVelocity history < 5)
    ∧ (costControlMsg ∈ recsOf (forecastHandler history)
        ↔ 110 < fProjectedFinalBudget history)
    ∧ (stakeholderMsg ∈ recsOf (forecastHandler history) ↔ fRiskLevel history = "high") := by
  have hlt : ¬ history.length < 2 := by omega
  have hok : ∃ r, forecastHandler history = Except.ok r := by
    cases hF : forecastHandler history with
    | ok r => exact ⟨r, rfl⟩
    | error e =>
      simp only [forecastHandler, if_neg hlt] at hF
      exact Except.noConfusion hF
  rw [recsOf_forecastHandler history hlt]
  refine ⟨hok, ?_, ?_, ?_⟩
  all_goals
  · simp only [fRecommendations]
    by_cases hv : fRecentVelocity history < 5 <;>
      by_cases hb : 110 < fProjectedFinalBudget history <;>
        by_cases hr : fRiskLevel history = "high" <;>
          simp_all [resourcingMsg, costControlMsg, stakeholderMsg]

/-- Claim C3, witness: on histSmall the velocity window is under 5 and the
resourcing advisory is contained in the recommendations. -/
theorem c3_forecast_recommendations_witness :
    resourcingMsg ∈ recsOf (forecastHandler histSmall) := by
  obtain ⟨-, hres, -, -⟩ := c3_forecast_recommendations histSmall (by norm_num [histSmall])
  have hv : fRecentVelocity histSmall < 5 := by
    norm_num [fRecentVelocity, forecastPoints, histSmall, List.enum, List.enumFrom]
  exact hres.mpr hv

/-- Claim C4: the normalizer stores budgetSpent = 500 currency units for a
budget of 1000 spent at 50 percent, but the portfolio summary adds
budgetTotal times budgetSpent over 100 = 5000, re-scaling the currency
amount as if it were a percentage: the summary total does not equal the
sum of the per-project currency spend. -/
theorem c4_budget_double_scaling :
    (buildProjectData rawBudget1000 none "t0" "2025").financials.budgetSpent = 500
    ∧ (getPortfolioSummary [projBudget1000]).total_budget_spent = 5000
    ∧ ((5000 : ℚ) ≠ 500) := by
  refine ⟨?_, ?_, by norm_num⟩
  · norm_num [buildProjectData, buildFinancials, rawBudget1000, emptyRaw, numOr0, jsRound,
      Int.floor_eq_iff]
  · norm_num [getPortfolioSummary, portfolioAcc, summaryStep, initSummaryAcc, classifyStatus,
      projBudget1000, storeProjectData, buildProjectData, buildFinancials, buildManpower,
      buildValuation, rawBudget1000, emptyRaw, numOr0, jsRound, Int.floor_eq_iff]

/-- Claim C5, counterexample: a new analysis exposing budgetSpent 500
against a prior snapshot that lacks financials produces a present
budget_spent delta of 500 (claim says omitted), and a new analysis whose
budgetSpent is 0 against a prior snapshot exposing financials produces an
omitted delta (claim says present): presence is gated on the truthiness
of the new value only. -/
theorem c5_delta_omission_counterexample :
    ((computeDeltas resBudget (some prevNoFin)).bind (·.budget_spent)) = some 500
    ∧ prevNoFin.financials = none
    ∧ ((computeDeltas resNoBudget (some prevWithFin)).bind (·.budget_spent)) = none
    ∧ prevWithFin.financials = some ⟨1000, 300⟩
    ∧ (resNoBudget.project_data.map (fun pd => pd.financials.budgetSpent)) = some 0 := by
  refine ⟨?_, rfl, ?_, rfl, ?_⟩
  · norm_num [computeDeltas, resBudget, prevNoFin, buildProjectData, buildFinancials,
      rawBudget1000, emptyRaw, numOr0, jsRound, Int.floor_eq_iff]
  · norm_num [computeDeltas, resNoBudget, prevWithFin, buildProjectData, buildFinancials,
      emptyRaw, numOr0, jsRound, Int.floor_eq_iff]
  · norm_num [resNoBudget, buildProjectData, buildFinancials, emptyRaw, numOr0, jsRound,
      Int.floor_eq_iff]

/-- Claim C5, amended: the first analysis produces no delta record; every
later one produces a record whose progress and delays deltas are always
present (a missing prior metric counts as 0), while the budget_spent,
workers and safety_score deltas are present exactly when the new snapshot
carries a nonzero value for that metric, regardless of the prior
snapshot. -/
theorem c5_delta_presence (r : AIAnalysisResult) (prev : HistSnapshot) :
    computeDeltas r none = none
    ∧ ∃ d, computeDeltas r (some prev) = some d
      ∧ d.progress = r.progressPercentage - prev.progressPercentage
      ∧ d.delays = r.delaysFlagged - prev.delaysFlagged
      ∧ (d.budget_spent ≠ none ↔ ∃ pd, r.project_data = some pd ∧ pd.financials.budgetSpent ≠ 0)
      ∧ (d.workers ≠ none ↔ ∃ pd, r.project_data = some pd ∧ pd.manpower.total ≠ 0)
      ∧ (d.safety_score ≠ none
          ↔ ∃ pd, r.project_data = some pd ∧ pd.manpower.safetyScore ≠ 0) := by
  constructor
  · rfl
  · refine ⟨_, rfl, rfl, rfl, ?_, ?_, ?_⟩ <;>
    · cases hpd : r.project_data with
      | none => simp [computeDeltas, hpd]
      | some pd =>
        simp only [computeDeltas, hpd]
        split_ifs with h <;> simp_all

/-- Claim C6: the normalizer derives budgetSpent as the rounded product of
budget total and spent percentage over 100, budgetRemaining as their
difference, projectedFinalCost from the cost overrun, and cashFlowHealth
as Positive, Neutral or Negative on the documented overrun boundaries,
including the 0, 9.9, 10 and 5,000,000 at 45 percent examples. -/
theorem c6_financial_derivations (raw : RawAIResult) (project : Option ProjCtx)
    (now year : String) :
    ((buildProjectData raw project now year).financials.budgetTotal
        = numOr0 (raw.financials.bind (·.budgetTotal)))
    ∧ ((buildProjectData raw project now year).financials.budgetSpent
        = jsRound (numOr0 (raw.financials.bind (·.budgetTotal))
            * numOr0 (raw.financials.bind (·.budgetSpent)) / 100))
    ∧ ((buildProjectData raw project now year).financials.budgetRemaining
        = (buildProjectData raw project now year).financials.budgetTotal
          - (buildProjectData raw project now year).financials.budgetSpent)
    ∧ ((buildProjectData raw project now year).financials.projectedFinalCost
        = jsRound (numOr0 (raw.financials.bind (·.budgetTotal))
            * (1 + numOr0 (raw.financials.bind (·.costOverrun)) / 100)))
    ∧ ((buildProjectData raw project now year).financials.cashFlowHealth = "Positive"
        ↔ numOr0 (raw.financials.bind (·.costOverrun)) ≤ 0)
    ∧ ((buildProjectData raw project now year).financials.cashFlowHealth = "Neutral"
        ↔ 0 < numOr0 (raw.financials.bind (·.costOverrun))
          ∧ numOr0 (raw.financials.bind (·.costOverrun)) < 10)
    ∧ ((buildProjectData raw project now year).financials.cashFlowHealth = "Negative"
        ↔ 10 ≤ numOr0 (raw.financials.bind (·.costOverrun)))
    ∧ (buildProjectData (rawOverrun 0) none "t" "y").financials.cashFlowHealth = "Positive"
    ∧ (buildProjectData (rawOverrun 9.9) none "t" "y").financials.cashFlowHealth = "Neutral"
    ∧ (buildProjectData (rawOverrun 10) none "t" "y").financials.cashFlowHealth = "Negative"
    ∧ (buildProjectData rawBudget5M none "t" "y").financials.budgetSpent = 2250000
    ∧ (buildProjectData rawBudget5M none "t" "y").financials.budgetRemaining = 2750000 := by
  refine ⟨rfl, rfl, rfl, rfl, ?_, ?_, ?_, ?_, ?_, ?_, ?_, ?_⟩
  · simp only [buildProjectData, buildFinancials]
    rcases le_or_lt (numOr0 (raw.financials.bind (·.costOverrun))) 0 with h | h
    · simp [h]
    · rcases lt_or_le (numOr0 (raw.financials.bind (·.costOverrun))) 10 with h' | h'
      · simp [h, h', not_le.mpr h]
      · simp [not_le.mpr h, not_lt.mpr h']
  · simp only [buildProjectData, buildFinancials]
    rcases le_or_lt (numOr0 (raw.financials.bind (·.costOverrun))) 0 with h | h
    · simp [h, not_lt.mpr h]
    · rcases lt_or_le (numOr0 (raw.financials.bind (·.costOverrun))) 10 with h' | h'
      · simp [h, h', not_le.mpr h]
      · simp [not_le.mpr h, not_lt.mpr h', h']
  · simp only [buildProjectData, buildFinancials]
    rcases le_or_lt (numOr0 (raw.financials.bind (·.costOverrun))) 0 with h | h
    · have h10 : ¬ (10 : ℚ) ≤ numOr0 (raw.financials.bind (·.costOverrun)) := by
        push_neg
        linarith
      simp [h, h10]
    · rcases lt_or_le (numOr0 (raw.financials.bind (·.costOverrun))) 10 with h' | h'
      · simp [not_le.mpr h, h', not_le.mpr h']
      · simp [not_le.mpr h, not_lt.mpr h', h']
  · norm_num [buildProjectData, buildFinancials, rawOverrun, emptyRaw, numOr0]
  · norm_num [buildProjectData, buildFinancials, rawOverrun, emptyRaw, numOr0]
  · norm_num [buildProjectData, buildFinancials, rawOverrun, emptyRaw, numOr0]
  · norm_num [buildProjectData, buildFinancials, rawBudget5M, emptyRaw, numOr0, jsRound,
      Int.floor_eq_iff]
  · norm_num [buildProjectData, buildFinancials, rawBudget5M, emptyRaw, numOr0, jsRound,
      Int.floor_eq_iff]

/-- Claim C7, counterexample: the normalizer is not total over arbitrary
objects and does not default non-numeric values to 0.  A present truthy
non-numeric progressPercentage (the string 45) survives the or-else-0
idiom unchanged instead of becoming 0, and a truthy non-array materials
value (the string ab) makes buildProjectData itself throw a TypeError at
the budget-distribution map; an absent value, by contrast, is defaulted
as claimed. -/
theorem c7_non_numeric_counterexample :
    progressFieldJS (JSVal.str "45") = JSVal.str "45"
    ∧ JSVal.str "45" ≠ JSVal.num 0
    ∧ budgetDistributionJS (JSVal.str "ab")
        = Except.error "TypeError: materials.map is not a function"
    ∧ progressFieldJS JSVal.undef = JSVal.num 0 := by
  refine ⟨rfl, by decide, rfl, rfl⟩

/-- Claim C7, amended: over raw inputs whose present fields carry values
of the expected JSON type (absent and falsy values are exactly what the
or-else idiom replaces), the normalizer raises no error and is fully
defaulting: a missing string field becomes the Unknown or N/A sentinel,
a missing numeric field becomes 0, missing collections become empty, and
a missing project context defaults the name, location and id, so every
required output field is defined. -/
theorem c7_normalizer_totality (raw : RawAIResult) (project : Option ProjCtx)
    (now year : String) :
    (raw.stage = none → (buildProjectData raw project now year).stage = "Unknown")
    ∧ (raw.timeRemaining = none → (buildProjectData raw project now year).timeRemaining = "Unknown")
    ∧ (raw.criticalPath = none → (buildProjectData raw project now year).criticalPath = "Unknown")
    ∧ (raw.progressPercentage = none → (buildProjectData raw project now year).progressPercentage = 0)
    ∧ (raw.delaysFlagged = none → (buildProjectData raw project now year).delaysFlagged = 0)
    ∧ (raw.manpower = none →
        (buildProjectData raw project now year).manpower.total = 0
        ∧ (buildProjectData raw project now year).manpower.skilled = 0
        ∧ (buildProjectData raw project now year).manpower.unskilled = 0
        ∧ (buildProjectData raw project now year).manpower.productivityIndex = 0
        ∧ (buildProjectData raw project now year).manpower.safetyScore = 0)
    ∧ (raw.machinery = none →
        (buildProjectData raw project now year).machinery.activeUnits = 0
        ∧ (buildProjectData raw project now year).machinery.utilization = 0
        ∧ (buildProjectData raw project now year).machinery.maintenanceAlerts = 0)
    ∧ (raw.financials = none →
        (buildProjectData raw project now year).financials.budgetTotal = 0
        ∧ (buildProjectData raw project now year).financials.budgetSpent = 0
        ∧ (buildProjectData raw project now year).financials.budgetRemaining = 0
        ∧ (buildProjectData raw project now year).financials.costOverrun = 0
        ∧ (buildProjectData raw project now year).financials.projectedFinalCost = 0
        ∧ (buildProjectData raw project now year).financials.cashFlowHealth = "Positive")
    ∧ (raw.valuation = none →
        (buildProjectData raw project now year).valuation.current = 0
        ∧ (buildProjectData raw project now year).valuation.landValue = 0
        ∧ (buildProjectData raw project now year).valuation.projectedCompletedValue = 0)
    ∧ (raw.compliance = none →
        (buildProjectData raw project now year).compliance.structuralScore = 0
        ∧ (buildProjectData raw project now year).compliance.sustainabilityRating = "N/A")
    ∧ (raw.geo = none →
        (buildProjectData raw project now year).geo.soilType = "Unknown"
        ∧ (buildProjectData raw project now year).geo.floodRisk = "Unknown"
        ∧ (buildProjectData raw project now year).geo.climateScore = 0)
    ∧ (raw.materials = none → (buildProjectData raw project now year).materials = [])
    ∧ (raw.insights = none → (buildProjectData raw project now year).insights = [])
    ∧ (project = none →
        (buildProjectData raw project now year).name = "Untitled Project"
        ∧ (buildProjectData raw project now year).location = "Unknown Location"
        ∧ (buildProjectData raw project now year).id = "temp-1")
    ∧ (buildProjectData raw project now year).lastUpdated = now := by
  refine ⟨?_, ?_, ?_, ?_, ?_, ?_, ?_, ?_, ?_, ?_, ?_, ?_, ?_, ?_, rfl⟩
  all_goals intro h
  · simp [buildProjectData, jsOrStr, h]
  · simp [buildProjectData, jsOrStr, h]
  · simp [buildProjectData, jsOrStr, h]
  · simp [buildProjectData, numOr0, h]
  · simp [buildProjectData, numOr0, h]
  · refine ⟨?_, ?_, ?_, ?_, ?_⟩ <;>
      norm_num [buildProjectData, buildManpower, numOr0, h]
  · refine ⟨?_, ?_, ?_⟩ <;>
      norm_num [buildProjectData, buildMachinery, numOr0, h]
  · refine ⟨?_, ?_, ?_, ?_, ?_, ?_⟩ <;>
      norm_num [buildProjectData, buildFinancials, numOr0, jsRound, Int.floor_eq_iff, h]
  · refine ⟨?_, ?_, ?_⟩ <;>
      norm_num [buildProjectData, buildValuation, numOr0, h]
  · refine ⟨?_, ?_⟩ <;>
      simp [buildProjectData, buildCompliance, numOr0, jsOrStr, h]
  · refine ⟨?_, ?_, ?_⟩ <;>
      simp [buildProjectData, buildGeo, numOr0, jsOrStr, h]
  · simp [buildProjectData, h]
  · simp [buildProjectData, h]
  · refine ⟨?_, ?_, ?_⟩ <;> simp [buildProjectData, jsOrStr, h]

/-- Claim C7, witness: the empty adapter object yields the fully-shaped
default record. -/
theorem c7_normalizer_totality_witness :
    (buildProjectData emptyRaw none "t" "y").stage = "Unknown"
    ∧ (buildProjectData emptyRaw none "t" "y").financials.cashFlowHealth = "Positive"
    ∧ (buildProjectData emptyRaw none "t" "y").materials = []
    ∧ (buildProjectData emptyRaw none "t" "y").name = "Untitled Project" := by
  have h := c7_normalizer_totality emptyRaw none "t" "y"
  exact ⟨h.1 rfl, (h.2.2.2.2.2.2.2.1 rfl).2.2.2.2.2, h.2.2.2.2.2.2.2.2.2.2.2.1 rfl,
    (h.2.2.2.2.2.2.2.2.2.2.2.2.2.1 rfl).1⟩

/-- Claim C8: on an adapter error the analyze handler replies with the 400
client error carrying the failure reason and leaves analyses, history and
the scan counter untouched; on success it appends one analysis and one
history entry and increments the scan counter exactly once; the counter
never decreases. -/
theorem c8_analyze_effects (st : AnalyzeState) (r : AIAnalysisResult) :
    (∀ msg, r.errorMsg = some msg →
      analyzeStep st r = (st, ⟨400, some msg⟩)
      ∧ (400 : ℕ) < 500 ∧ (400 : ℕ) ≥ 400)
    ∧ (r.errorMsg = none →
      (analyzeStep st r).1.analyses = st.analyses ++ [r]
      ∧ (analyzeStep st r).1.scans_used = st.scans_used + 1
      ∧ (∃ entry, (analyzeStep st r).1.history = st.history ++ [entry])
      ∧ (analyzeStep st r).2 = ⟨200, none⟩)
    ∧ st.scans_used ≤ (analyzeStep st r).1.scans_used := by
  refine ⟨?_, ?_, ?_⟩
  · intro msg hmsg
    refine ⟨?_, by norm_num, by norm_num⟩
    simp [analyzeStep, hmsg]
  · intro hnone
    refine ⟨?_, ?_, ?_, ?_⟩
    · simp [analyzeStep, hnone]
    · simp [analyzeStep, hnone]
    · exact ⟨(snapshotOf r, computeDeltas r ((st.history.getLast?).map (·.1))),
        by simp [analyzeStep, hnone]⟩
    · simp [analyzeStep, hnone]
  · cases hmsg : r.errorMsg with
    | none => simp [analyzeStep, hmsg]
    | some m => simp [analyzeStep, hmsg]

/-- Claim C8, witness: a failed adapter result leaves the state unchanged
with a 400 reply, and a successful one bumps the counter from 3 to 4. -/
theorem c8_analyze_effects_witness :
    analyzeStep ⟨[], [], 0⟩ resFailed = (⟨[], [], 0⟩, ⟨400, some "AI analysis failed: boom"⟩)
    ∧ (analyzeStep ⟨[], [], 3⟩ resBudget).1.scans_used = 4 := by
  constructor
  · exact ((c8_analyze_effects ⟨[], [], 0⟩ resFailed).1 "AI analysis failed: boom" rfl).1
  · exact ((c8_analyze_effects ⟨[], [], 3⟩ resBudget).2.1 rfl).2.1

/-- Claim C9: in every reachable latch state at most one connection
attempt is in flight, every waiting caller waits on the marked pending
attempt, and a failed settle clears the marker and leaves the latch able
to start exactly one fresh attempt on the next request. -/
theorem c9_connection_latch (s : ConnState) (h : ConnReachable s) :
    s.inFlight.length ≤ 1
    ∧ (∀ p ∈ s.waiting, s.marker = some p.2 ∧ p.2 ∈ s.inFlight)
    ∧ (∀ id s', ConnStep s (.settle id false) s' →
        s'.marker = none ∧ s'.connected = false
        ∧ ∀ c, ∃ s'', ConnStep s' (.enter c) s''
            ∧ s''.inFlight.length = 1 ∧ s''.marker = some s'.nextId) := by
  obtain ⟨h1, h2, h3, h4⟩ := connInv_of_reachable s h
  refine ⟨h1, ?_, ?_⟩
  · intro p hp
    exact ⟨h2 p.2 (h3 p hp), h3 p hp⟩
  · intro id s' hstep
    cases hstep with
    | settle hmem =>
      have hsingle := inFlight_eq_singleton h1 hmem
      refine ⟨rfl, rfl, ?_⟩
      intro c
      refine ⟨_, ConnStep.enterStart rfl rfl, ?_, rfl⟩
      simp [hsingle]

/-- Claim C9, witness: the state reached by the first cold request has one
in-flight attempt and its waiter waits on the marked attempt. -/
theorem c9_connection_latch_witness :
    connAfterFirstEnter.inFlight.length ≤ 1
    ∧ (∀ p ∈ connAfterFirstEnter.waiting, connAfterFirstEnter.marker = some p.2) := by
  have hreach : ConnReachable connAfterFirstEnter :=
    ConnReachable.step ConnReachable.init (ConnStep.enterStart rfl rfl)
  have h := c9_connection_latch connAfterFirstEnter hreach
  exact ⟨h.1, fun p hp => (h.2.1 p hp).1⟩

/-- Claim C10, counterexample: a free user with scans_used 1 and
scans_limit 0 satisfies the claimed rejection condition, yet the gate
lets the request through because a falsy stored limit is replaced by 3. -/
theorem c10_scan_limit_counterexample :
    checkScanLimit ⟨"free", 1, 0⟩ = none ∧ ((0 : ℚ) ≤ 1) := by
  constructor
  · norm_num [checkScanLimit]
  · norm_num

/-- Claim C10, amended: with a nonzero stored limit the gate rejects with
403 iff the defaulted plan is free and usage is at least the limit; a
user on a nonempty non-free plan is never rejected; the gate either
passes or replies 403. -/
theorem c10_scan_limit (sub : Subscription) :
    (sub.scans_limit ≠ 0 →
      (checkScanLimit sub = some 403
        ↔ (if sub.plan = "" then "free" else sub.plan) = "free"
          ∧ sub.scans_limit ≤ sub.scans_used))
    ∧ (sub.plan ≠ "free" → sub.plan ≠ "" → checkScanLimit sub = none)
    ∧ (checkScanLimit sub = none ∨ checkScanLimit sub = some 403) := by
  refine ⟨?_, ?_, ?_⟩
  · intro hl
    simp only [checkScanLimit, if_neg hl]
    split_ifs with h <;> simp_all
  · intro h1 h2
    simp [checkScanLimit, h2, h1]
  · simp only [checkScanLimit]
    split_ifs <;> simp

/-- Claim C10, witness: a free user at 5 of 3 scans is rejected with 403
and a pro user far over the limit passes. -/
theorem c10_scan_limit_witness :
    checkScanLimit ⟨"free", 5, 3⟩ = some 403 ∧ checkScanLimit ⟨"pro", 500, 3⟩ = none := by
  constructor
  · exact ((c10_scan_limit ⟨"free", 5, 3⟩).1 (by norm_num)).mpr (by norm_num)
  · exact (c10_scan_limit ⟨"pro", 500, 3⟩).2.1 (by simp) (by simp)

end Btools
